import Mathlib

/-!
A shallow embedding of `src/Sources/inspector-test.cpp` (the Krom inspector
test shim): the native-function bridge (print, quit, setlocale, load,
setTimeout), the global shutdown routines, the frontend channel's outbound
re-encoding, the inbound transport callback, the protocol-dispatch task, and
the startup sequence of `kore`.

Observable behaviour is modelled as an explicit trace of effects appended to
a global state.  V8 values are modelled as a small tagged variant; numeric
values are modelled as integers (the only numeric operation the source
performs on them is a comparison with `0.0`).
-/

namespace Krom

/-- A V8 value, restricted to the shapes the embedded functions inspect:
`undefined` (what `args[i]` yields past the end of the argument list),
strings, symbols (carrying their `Name()` string), numbers and functions
(carrying an opaque handle). -/
inductive Value
  | undefined
  | str (s : String)
  | sym (name : String)
  | num (n : Int)
  | func (id : Nat)
deriving DecidableEq, Repr

def Value.isString : Value → Bool
  | .str _ => true
  | _ => false

def Value.isFunction : Value → Bool
  | .func _ => true
  | _ => false

def Value.isNumber : Value → Bool
  | .num _ => true
  | _ => false

/-- The numeric value read by `args[1].As<v8::Number>()->Value()`; only ever
evaluated by the source after `IsNumber()` has been checked. -/
def Value.numberValue : Value → Int
  | .num n => n
  | _ => 0

/-- `v8::String::Utf8Value` / `ToString` on a value: `none` models a throwing
conversion (a plain `Symbol` is the only such value in this universe; the
source converts symbols to their name before stringifying in `Print`, and in
`SetLocale`/`Load` a symbol argument leaves `Utf8Value` with null data). -/
def Value.toDisplayString : Value → Option String
  | .undefined => some "undefined"
  | .str s => some s
  | .sym _ => none
  | .num n => some (toString n)
  | .func _ => some "function"

/-- `args[i]` in a `v8::FunctionCallbackInfo`: out-of-range access yields
`undefined`. -/
def getArg (args : List Value) (i : Nat) : Value :=
  args.getD i Value.undefined

/-- `TaskRunner::Task`, a tagged variant:
`runScript` is `ExecuteStringTask` (carrying the source text),
`runTimerCallback` is `SetTimeoutTask` (carrying the function handle),
`dispatchProtocolMessage` is `SendMessageToBackendTask` (carrying the
protocol text). -/
inductive Task
  | runScript (source : String)
  | runTimerCallback (f : Nat)
  | dispatchProtocolMessage (text : String)
deriving DecidableEq, Repr

/-- `Task::is_inspector_task()`: `true` only for `SendMessageToBackendTask`. -/
def Task.isInspectorTask : Task → Bool
  | .dispatchProtocolMessage _ => true
  | _ => false

/-- One observable action of the embedded functions, in program order. -/
inductive Effect
  /-- a fully successful `fwrite`/`printf` of `s` to stdout -/
  | wrote (s : String)
  /-- an `fwrite` that wrote fewer bytes than requested (short write of `s`) -/
  | wrotePartial (s : String)
  | flushedStdout
  | flushedStderr
  /-- `fprintf(stderr, msg)` of an internal-error diagnostic -/
  | fatalMsg (msg : String)
  /-- `TaskRunner::Terminate()` on runner `r` -/
  | terminatedRunner (r : Nat)
  /-- `TaskRunner::Join()` on runner `r` -/
  | joinedRunner (r : Nat)
  /-- a call to `exit`/`_exit`/`abort` ending the process; no function in
  this source ever performs one, so no modelled function emits it -/
  | exitedProcess
  /-- `TaskRunner::Append(t)` on runner `r` -/
  | appended (r : Nat) (t : Task)
  /-- `isolate->ThrowException` of a script-visible error -/
  | threw (msg : String)
  /-- `setlocale(LC_NUMERIC, arg)`; `none` is a null C string -/
  | localeSet (arg : Option String)
  /-- `v8::internal::ReadFile(path, &exists)` -/
  | fileRead (path : String)
  /-- `ExecuteStringTask::Run`: the source text executed in the active context -/
  | ranScript (source : String)
  /-- `SetTimeoutTask::Run`: the callback invoked in the active context -/
  | ranCallback (f : Nat)
  /-- `session->dispatchProtocolMessage(text)` on session `s` -/
  | dispatched (s : Nat) (text : String)
  /-- a failed `CHECK`: the process aborts -/
  | processAbort
  /-- an operation whose C++ behaviour is undefined (unchecked cast or
  null-data string construction) -/
  | undefBehavior
deriving DecidableEq, Repr

/-- The process-wide state the embedded functions touch: the `task_runners`
registry (runner identifiers, in registration order) and the chronological
effect trace. -/
structure GlobalState where
  taskRunners : List Nat
  trace : List Effect
deriving DecidableEq, Repr

/-- The anonymous-namespace `Terminate()`: for each registered runner in
order, `Terminate()` then `Join()`, then swap `task_runners` with an empty
vector. -/
def Terminate (st : GlobalState) : GlobalState :=
  { taskRunners := [],
    trace := st.trace ++
      st.taskRunners.flatMap (fun r => [.terminatedRunner r, .joinedRunner r]) }

/-- The anonymous-namespace `Exit()`: `fflush(stdout); fflush(stderr);
Terminate();`.  Note: it returns to its caller; it does not end the
process. -/
def Exit (st : GlobalState) : GlobalState :=
  Terminate { st with trace := st.trace ++ [.flushedStdout, .flushedStderr] }

/-- `UtilsExtension::Quit`: ignores its arguments and calls `Exit()`. -/
def Quit (args : List Value) (st : GlobalState) : GlobalState :=
  Exit st

theorem Exit_def (st : GlobalState) :
    Exit st =
      { taskRunners := [],
        trace := st.trace ++ [.flushedStdout, .flushedStderr] ++
          st.taskRunners.flatMap
            (fun r => [.terminatedRunner r, .joinedRunner r]) } := by
  simp [Exit, Terminate, List.append_assoc]

/-- C10: the global shutdown routine is idempotent over runners — the first
`Terminate()` empties the registry after the per-runner Terminate/Join
sweep, so a second `Terminate()` (or `Exit()`) touches no runner: the second
`Terminate` is the identity, and a second `Exit` adds only the two flushes
to the trace. -/
theorem terminate_idempotent (st : GlobalState) :
    (Terminate st).taskRunners = [] ∧
    Terminate (Terminate st) = Terminate st ∧
    Exit (Terminate st) =
      { taskRunners := [],
        trace := (Terminate st).trace ++ [.flushedStdout, .flushedStderr] } := by
  refine ⟨rfl, ?_, ?_⟩
  · simp [Terminate]
  · simp [Exit, Terminate]

/-- C2 (counterexample): on a concrete state with two registered runners,
`quit()` flushes, terminates and joins each runner in order, but its trace
contains no process-exit action — the claim's final step, "exits the
process", does not happen. -/
theorem quit_no_process_exit :
    (Quit [] ⟨[10, 20], []⟩).trace =
      [.flushedStdout, .flushedStderr,
       .terminatedRunner 10, .joinedRunner 10,
       .terminatedRunner 20, .joinedRunner 20] ∧
    Effect.exitedProcess ∉ (Quit [] ⟨[10, 20], []⟩).trace := by
  constructor
  · rfl
  · decide

/-- C2 (amended): `quit()` flushes stdout then stderr, then for each known
Runner in registration order calls Terminate followed by Join (so the first
Runner is joined before the second is asked to terminate), then empties the
runner registry and returns — without exiting the process. -/
theorem quit_shutdown_order (args : List Value) (st : GlobalState) :
    Quit args st = Exit st ∧
    (Exit st).trace = st.trace ++ [.flushedStdout, .flushedStderr] ++
      st.taskRunners.flatMap (fun r => [.terminatedRunner r, .joinedRunner r]) ∧
    (Exit st).taskRunners = [] := by
  refine ⟨rfl, ?_, rfl⟩
  simp [Exit, Terminate, List.append_assoc]

/-- The symbol substitution at the top of `UtilsExtension::Print`'s loop:
`if (arg->IsSymbol()) arg = v8::Local<v8::Symbol>::Cast(arg)->Name();`. -/
def printSubst : Value → Value
  | .sym n => .str n
  | v => v

/-- The string `Print` writes for one argument: the symbol-substituted
value's `ToString`.  After substitution the conversion never throws in this
value universe. -/
def printStringify (v : Value) : String :=
  ((printSubst v).toDisplayString).getD ""

/-- The body of `UtilsExtension::Print`'s `for` loop, from argument index
`i` on (`first` is `i == 0`).  Per argument: a separating `" "` when not
first; symbol substitution; `ToString` (a throwing conversion re-throws and
returns from `Print` — second component `true`); `fwrite` of the UTF-8
bytes, and on a short write `printf("Error in fwrite\n")` then `Quit`
(i.e. `Exit`) — which returns, so the loop continues.  `writeOk s` says
whether `fwrite` writes all of `s`. -/
def printLoop (writeOk : String → Bool) (first : Bool) (st : GlobalState) :
    List Value → GlobalState × Bool
  | [] => (st, false)
  | v :: rest =>
    let st1 := if first then st else { st with trace := st.trace ++ [.wrote " "] }
    match (printSubst v).toDisplayString with
    | none => (st1, true)
    | some s =>
      let st2 :=
        if writeOk s then { st1 with trace := st1.trace ++ [.wrote s] }
        else
          Exit { st1 with trace := st1.trace ++
            [.wrotePartial s, .wrote "Error in fwrite\n"] }
      printLoop writeOk false st2 rest

/-- `UtilsExtension::Print`: the argument loop, then — unless a `ToString`
threw and the function returned early — `printf("\n"); fflush(stdout);`. -/
def Print (writeOk : String → Bool) (args : List Value) (st : GlobalState) :
    GlobalState :=
  match printLoop writeOk true st args with
  | (st1, true) => st1
  | (st1, false) => { st1 with trace := st1.trace ++ [.wrote "\n", .flushedStdout] }

/-- The writes `Print` performs for the arguments after the first: each is
preceded by a single separating space. -/
def spacedTail (args : List Value) : List Effect :=
  args.flatMap (fun v => [.wrote " ", .wrote (printStringify v)])

/-- The writes `Print` performs for a whole argument list: the stringified
arguments separated by single spaces. -/
def printedTrace : List Value → List Effect
  | [] => []
  | v :: rest => .wrote (printStringify v) :: spacedTail rest

theorem printSubst_toDisplayString (v : Value) :
    (printSubst v).toDisplayString = some (printStringify v) := by
  cases v <;> simp [printSubst, printStringify, Value.toDisplayString]

theorem printLoop_ok_false (writeOk : String → Bool) (args : List Value) :
    ∀ st : GlobalState, (∀ v ∈ args, writeOk (printStringify v) = true) →
      printLoop writeOk false st args =
        ({ st with trace := st.trace ++ spacedTail args }, false) := by
  induction args with
  | nil => intro st _; simp [printLoop, spacedTail]
  | cons v rest ih =>
    intro st h
    have hv : writeOk (printStringify v) = true := h v (by simp)
    have hrest : ∀ w ∈ rest, writeOk (printStringify w) = true :=
      fun w hw => h w (by simp [hw])
    simp only [printLoop, printSubst_toDisplayString, hv, if_true, if_false,
      Bool.false_eq_true, ite_false]
    rw [ih _ hrest]
    simp [spacedTail, List.append_assoc]

theorem printLoop_ok_true (writeOk : String → Bool) (args : List Value)
    (st : GlobalState) (h : ∀ v ∈ args, writeOk (printStringify v) = true) :
    printLoop writeOk true st args =
      ({ st with trace := st.trace ++ printedTrace args }, false) := by
  cases args with
  | nil => simp [printLoop, printedTrace]
  | cons v rest =>
    have hv : writeOk (printStringify v) = true := h v (by simp)
    have hrest : ∀ w ∈ rest, writeOk (printStringify w) = true :=
      fun w hw => h w (by simp [hw])
    simp only [printLoop, printSubst_toDisplayString, hv, if_true, ite_true]
    rw [printLoop_ok_false writeOk rest _ hrest]
    simp [printedTrace, List.append_assoc]

theorem printLoop_trace_mono (writeOk : String → Bool) (args : List Value) :
    ∀ (st : GlobalState) (first : Bool) (e : Effect), e ∈ st.trace →
      e ∈ (printLoop writeOk first st args).1.trace := by
  induction args with
  | nil => intro st first e he; simpa [printLoop] using he
  | cons v rest ih =>
    intro st first e he
    simp only [printLoop]
    cases hd : (printSubst v).toDisplayString with
    | none =>
      by_cases hf : first <;> simp [hf, he, List.mem_append]
    | some s =>
      by_cases hw : writeOk s <;> by_cases hf : first <;>
        · apply ih
          simp [hw, hf, Exit, Terminate, List.mem_append, he]

theorem printLoop_runners_empty (writeOk : String → Bool) (args : List Value) :
    ∀ (st : GlobalState) (first : Bool), st.taskRunners = [] →
      (printLoop writeOk first st args).1.taskRunners = [] := by
  induction args with
  | nil => intro st first h; simpa [printLoop] using h
  | cons v rest ih =>
    intro st first h
    simp only [printLoop]
    cases hd : (printSubst v).toDisplayString with
    | none => by_cases hf : first <;> simp [hf, h]
    | some s =>
      by_cases hw : writeOk s <;> by_cases hf : first <;>
        · apply ih
          simp [hw, hf, Exit, Terminate, h]

theorem printLoop_fail (writeOk : String → Bool) (args : List Value) :
    ∀ (st : GlobalState) (first : Bool),
      (∃ v ∈ args, writeOk (printStringify v) = false) →
      (printLoop writeOk first st args).1.taskRunners = [] ∧
      Effect.flushedStderr ∈ (printLoop writeOk first st args).1.trace ∧
      Effect.wrote "Error in fwrite\n" ∈ (printLoop writeOk first st args).1.trace := by
  induction args with
  | nil => intro st first h; exact absurd h (by simp)
  | cons v rest ih =>
    intro st first h
    by_cases hv : writeOk (printStringify v) = true
    · -- the head write succeeds, so the failing argument is in the tail
      have hrest : ∃ w ∈ rest, writeOk (printStringify w) = false := by
        rcases h with ⟨w, hw, hfail⟩
        rcases List.mem_cons.1 hw with rfl | hw'
        · exact absurd hv (by simp [hfail])
        · exact ⟨w, hw', hfail⟩
      simp only [printLoop, printSubst_toDisplayString, hv, if_true, ite_true]
      exact ih _ false hrest
    · -- the head write fails: Exit runs here, and what follows preserves it
      have hv' : writeOk (printStringify v) = false := by
        simpa using hv
      simp only [printLoop, printSubst_toDisplayString, hv', if_false,
        Bool.false_eq_true, ite_false]
      refine ⟨printLoop_runners_empty writeOk rest _ false ?_,
        printLoop_trace_mono writeOk rest _ false _ ?_,
        printLoop_trace_mono writeOk rest _ false _ ?_⟩ <;>
        simp [Exit, Terminate, List.mem_append]

/-- C7: `print(args...)` stringifies each argument (a symbol via its name),
writes the results separated by single spaces, writes a trailing newline and
flushes stdout; and if the `fwrite` of some argument's bytes is short, the
shutdown routine runs (the error diagnostic is written, stderr is flushed
and the runner registry is emptied). -/
theorem print_output_and_shutdown (writeOk : String → Bool) (args : List Value)
    (st : GlobalState) :
    ((∀ v ∈ args, writeOk (printStringify v) = true) →
      Print writeOk args st =
        { st with trace := st.trace ++ printedTrace args ++
            [.wrote "\n", .flushedStdout] }) ∧
    ((∃ v ∈ args, writeOk (printStringify v) = false) →
      (Print writeOk args st).taskRunners = [] ∧
      Effect.flushedStderr ∈ (Print writeOk args st).trace ∧
      Effect.wrote "Error in fwrite\n" ∈ (Print writeOk args st).trace) := by
  constructor
  · intro h
    simp [Print, printLoop_ok_true writeOk args st h, List.append_assoc]
  · intro h
    have := printLoop_fail writeOk args st true h
    rcases hres : printLoop writeOk true st args with ⟨st1, b⟩
    rw [hres] at this
    cases b <;>
      simpa [Print, hres, List.mem_append] using this

/-- C7 witness: concrete evaluation — all writes succeed for
`print("a", Symbol("s"))`, and with writes failing, shutdown runs. -/
theorem print_output_and_shutdown_witness :
    (Print (fun _ => true) [Value.str "a", Value.sym "s"] ⟨[4], []⟩ =
      { taskRunners := [4],
        trace := [.wrote "a", .wrote " ", .wrote "s",
                  .wrote "\n", .flushedStdout] }) ∧
    ((Print (fun _ => false) [Value.str "a"] ⟨[4], []⟩).taskRunners = [] ∧
      Effect.flushedStderr ∈ (Print (fun _ => false) [Value.str "a"] ⟨[4], []⟩).trace ∧
      Effect.wrote "Error in fwrite\n" ∈
        (Print (fun _ => false) [Value.str "a"] ⟨[4], []⟩).trace) :=
  ⟨by
    have h := (print_output_and_shutdown (fun _ => true)
      [Value.str "a", Value.sym "s"] ⟨[4], []⟩).1 (by intro v _; rfl)
    simpa [printedTrace, spacedTail, printStringify, printSubst,
      Value.toDisplayString] using h,
   (print_output_and_shutdown (fun _ => false) [Value.str "a"] ⟨[4], []⟩).2
     ⟨Value.str "a", by simp, rfl⟩⟩

/-- `UtilsExtension::SetLocale`: the argument-shape check calls `Exit()` on
violation but does not return, so `setlocale(LC_NUMERIC, ...)` is invoked in
every case with the `Utf8Value` of `args[0]`. -/
def SetLocale (args : List Value) (st : GlobalState) : GlobalState :=
  let st1 :=
    if args.length != 1 || !(getArg args 0).isString then
      Exit { st with trace := st.trace ++
        [.fatalMsg "Internal error: setlocale get one string argument."] }
    else st
  { st1 with trace := st1.trace ++ [.localeSet (getArg args 0).toDisplayString] }

/-- `UtilsExtension::Load`: argument-shape check (calling `Exit()` on
violation, without returning), then `ReadFile`; a missing file throws a
script-visible "Error loading file" and returns; an existing file's content
is executed inline by calling `ExecuteStringTask::Run` directly in the
calling context (never `Append`ed).  `readFile path` is the file-read
collaborator: `none` means the file does not exist.  A `none` from
`Utf8Value` (throwing `ToString`) leaves the filename construction with null
data — undefined behaviour. -/
def Load (readFile : String → Option String) (args : List Value)
    (st : GlobalState) : GlobalState :=
  let st1 :=
    if args.length != 1 || !(getArg args 0).isString then
      Exit { st with trace := st.trace ++
        [.fatalMsg "Internal error: load gets one string argument."] }
    else st
  match (getArg args 0).toDisplayString with
  | none => { st1 with trace := st1.trace ++ [.undefBehavior] }
  | some filename =>
    match readFile filename with
    | none =>
      { st1 with trace := st1.trace ++
        [.fileRead filename, .threw "Error loading file"] }
    | some content =>
      { st1 with trace := st1.trace ++
        [.fileRead filename, .ranScript content] }

/-- The validation condition of `SetTimeoutExtension::SetTimeout`, exactly as
written in the source: `args.Length() != 2 || !args[1]->IsNumber() ||
(!args[0]->IsFunction() && !args[0]->IsString()) ||
args[1].As<v8::Number>()->Value() != 0.0`. -/
def setTimeoutBad (args : List Value) : Bool :=
  args.length != 2 || !(getArg args 1).isNumber ||
    (!(getArg args 0).isFunction && !(getArg args 0).isString) ||
    (getArg args 1).numberValue != 0

/-- `SetTimeoutExtension::SetTimeout`: on validation failure prints the
internal-error diagnostic and calls `Exit()` — which returns, so the append
still happens.  A function target is wrapped in a `SetTimeoutTask`
(RunTimerCallback) and a string target in an `ExecuteStringTask` (RunScript),
appended to the Runner owning the calling context (`runnerOfContext`); the
target is never run inline.  A target that is neither (reachable only after
the failed check) hits an unchecked `As<v8::String>` cast — undefined
behaviour. -/
def SetTimeout (runnerOfContext : Nat) (args : List Value)
    (st : GlobalState) : GlobalState :=
  let st1 :=
    if setTimeoutBad args then
      Exit { st with trace := st.trace ++
        [.fatalMsg "Internal error: only setTimeout(function, 0) is supported."] }
    else st
  match getArg args 0 with
  | .func f =>
    { st1 with trace := st1.trace ++ [.appended runnerOfContext (.runTimerCallback f)] }
  | .str s =>
    { st1 with trace := st1.trace ++ [.appended runnerOfContext (.runScript s)] }
  | _ => { st1 with trace := st1.trace ++ [.undefBehavior] }

/-- C3: `setTimeout` with delay 0 and a callable target appends exactly one
RunTimerCallback Task to the Runner owning the calling context, with delay 0
and a source-text target exactly one RunScript Task (in both cases nothing
is executed inline — the whole observable behaviour is that single append);
and whenever the source's validation condition holds (wrong argument count,
non-number delay, non-callable non-string target, or non-zero delay), the
fatal diagnostic is emitted and the shutdown routine runs. -/
theorem setTimeout_defers_or_fatal (runnerOfContext f : Nat) (s : String)
    (st : GlobalState) :
    SetTimeout runnerOfContext [.func f, .num 0] st =
      { st with trace := st.trace ++
          [.appended runnerOfContext (.runTimerCallback f)] } ∧
    SetTimeout runnerOfContext [.str s, .num 0] st =
      { st with trace := st.trace ++
          [.appended runnerOfContext (.runScript s)] } ∧
    (∀ args : List Value, setTimeoutBad args = true →
      (SetTimeout runnerOfContext args st).taskRunners = [] ∧
      Effect.fatalMsg "Internal error: only setTimeout(function, 0) is supported."
        ∈ (SetTimeout runnerOfContext args st).trace ∧
      Effect.flushedStderr ∈ (SetTimeout runnerOfContext args st).trace) := by
  refine ⟨?_, ?_, ?_⟩
  · simp [SetTimeout, setTimeoutBad, getArg, Value.isNumber, Value.isFunction,
      Value.numberValue]
  · simp [SetTimeout, setTimeoutBad, getArg, Value.isNumber, Value.isString,
      Value.isFunction, Value.numberValue]
  · intro args h
    simp only [SetTimeout, h, if_true]
    cases hg : getArg args 0 <;>
      simp [hg, Exit, Terminate, List.mem_append]

/-- C3 witness: concrete evaluations — `setTimeout(f, 0)` appends the timer
task and nothing else; `setTimeout(f, 5)` satisfies the validation condition
and runs the shutdown routine. -/
theorem setTimeout_defers_or_fatal_witness :
    SetTimeout 0 [.func 1, .num 0] ⟨[7], []⟩ =
      { taskRunners := [7], trace := [.appended 0 (.runTimerCallback 1)] } ∧
    ((SetTimeout 0 [.func 1, .num 5] ⟨[7], []⟩).taskRunners = [] ∧
      Effect.fatalMsg "Internal error: only setTimeout(function, 0) is supported."
        ∈ (SetTimeout 0 [.func 1, .num 5] ⟨[7], []⟩).trace ∧
      Effect.flushedStderr ∈ (SetTimeout 0 [.func 1, .num 5] ⟨[7], []⟩).trace) :=
  ⟨(setTimeout_defers_or_fatal 0 1 "x" ⟨[7], []⟩).1,
   (setTimeout_defers_or_fatal 0 1 "x" ⟨[7], []⟩).2.2
     [.func 1, .num 5] (by decide)⟩

/-- C5: `load(path)` with a string path whose file does not exist reads the
file, throws the script-visible "Error loading file" and returns with the
runner registry untouched (no abort, no exit); with an existing file it
reads it and executes the content inline in the calling context — the trace
shows a `ranScript`, never an `appended`. -/
theorem load_inline_or_error (readFile : String → Option String)
    (path : String) (st : GlobalState) :
    (readFile path = none →
      Load readFile [.str path] st =
        { st with trace := st.trace ++
            [.fileRead path, .threw "Error loading file"] }) ∧
    (∀ content, readFile path = some content →
      Load readFile [.str path] st =
        { st with trace := st.trace ++
            [.fileRead path, .ranScript content] }) := by
  constructor
  · intro h
    simp [Load, getArg, Value.isString, Value.toDisplayString, h]
  · intro content h
    simp [Load, getArg, Value.isString, Value.toDisplayString, h]

/-- C5 witness: concrete evaluations against a file system where `"a.js"`
does not exist and one where it holds `"print(1)"`. -/
theorem load_inline_or_error_witness :
    Load (fun _ => none) [.str "a.js"] ⟨[3], []⟩ =
      { taskRunners := [3],
        trace := [.fileRead "a.js", .threw "Error loading file"] } ∧
    Load (fun _ => some "print(1)") [.str "a.js"] ⟨[3], []⟩ =
      { taskRunners := [3],
        trace := [.fileRead "a.js", .ranScript "print(1)"] } :=
  ⟨(load_inline_or_error (fun _ => none) "a.js" ⟨[3], []⟩).1 rfl,
   (load_inline_or_error (fun _ => some "print(1)") "a.js" ⟨[3], []⟩).2
     "print(1)" rfl⟩

/-- C9: a failed argument-shape validation does not stop the operation —
after `Exit()` returns, `setlocale` is still invoked with the stringified
(absent ⇒ `undefined`) first argument, `load` still proceeds to read the
file named by the stringified absent argument, and `setTimeout` with a
callable target and non-zero delay still appends the timer Task; in each
trace the operation's own action follows the full shutdown sweep. -/
theorem validation_failure_continues (readFile : String → Option String)
    (runnerOfContext f : Nat) (d : Int) (st : GlobalState)
    (hd : d ≠ 0) (hrf : readFile "undefined" = none) :
    SetLocale [] st =
      { taskRunners := [],
        trace := st.trace ++
          [.fatalMsg "Internal error: setlocale get one string argument.",
           .flushedStdout, .flushedStderr] ++
          st.taskRunners.flatMap
            (fun r => [.terminatedRunner r, .joinedRunner r]) ++
          [.localeSet (some "undefined")] } ∧
    Load readFile [] st =
      { taskRunners := [],
        trace := st.trace ++
          [.fatalMsg "Internal error: load gets one string argument.",
           .flushedStdout, .flushedStderr] ++
          st.taskRunners.flatMap
            (fun r => [.terminatedRunner r, .joinedRunner r]) ++
          [.fileRead "undefined", .threw "Error loading file"] } ∧
    SetTimeout runnerOfContext [.func f, .num d] st =
      { taskRunners := [],
        trace := st.trace ++
          [.fatalMsg "Internal error: only setTimeout(function, 0) is supported.",
           .flushedStdout, .flushedStderr] ++
          st.taskRunners.flatMap
            (fun r => [.terminatedRunner r, .joinedRunner r]) ++
          [.appended runnerOfContext (.runTimerCallback f)] } := by
  refine ⟨?_, ?_, ?_⟩
  · simp [SetLocale, getArg, Value.isString, Value.toDisplayString,
      Exit, Terminate, List.append_assoc]
  · simp [Load, getArg, Value.isString, Value.toDisplayString, hrf,
      Exit, Terminate, List.append_assoc]
  · have hbad : setTimeoutBad [.func f, .num d] = true := by
      simp [setTimeoutBad, getArg, Value.isNumber, Value.isFunction,
        Value.numberValue, hd]
    simp [SetTimeout, hbad, getArg, Exit, Terminate, List.append_assoc]

/-- C9 witness: concrete evaluation at delay 5, an empty file system and one
registered runner. -/
theorem validation_failure_continues_witness :
    SetLocale [] ⟨[2], []⟩ =
      { taskRunners := [],
        trace := [.fatalMsg "Internal error: setlocale get one string argument.",
          .flushedStdout, .flushedStderr, .terminatedRunner 2, .joinedRunner 2,
          .localeSet (some "undefined")] } ∧
    Load (fun _ => none) [] ⟨[2], []⟩ =
      { taskRunners := [],
        trace := [.fatalMsg "Internal error: load gets one string argument.",
          .flushedStdout, .flushedStderr, .terminatedRunner 2, .joinedRunner 2,
          .fileRead "undefined", .threw "Error loading file"] } ∧
    SetTimeout 0 [.func 1, .num 5] ⟨[2], []⟩ =
      { taskRunners := [],
        trace := [.fatalMsg "Internal error: only setTimeout(function, 0) is supported.",
          .flushedStdout, .flushedStderr, .terminatedRunner 2, .joinedRunner 2,
          .appended 0 (.runTimerCallback 1)] } := by
  have h := validation_failure_continues (fun _ => none) 0 1 5 ⟨[2], []⟩
    (by decide) rfl
  exact ⟨h.1, h.2.1, h.2.2⟩

/-- `SendMessageToBackendTask::Run`: look up the Session bound to the active
context (`session`, `none` when the context has no bound Session);
`CHECK(session)` aborts the process when absent; otherwise the carried text
is forwarded, exactly and as one command, via `dispatchProtocolMessage`. -/
def sendMessageToBackendTaskRun (session : Option Nat) (message : String) :
    List Effect :=
  match session with
  | none => [.processAbort]
  | some s => [.dispatched s message]

/-- The execution of one Task with the context active and `session` the
Session bound to that context.  The dispatch case is
`SendMessageToBackendTask::Run` from the source; `runTimerCallback` is
`SetTimeoutTask::Run` (the callback invoked between the inspector's
will/didExecuteScript hooks); `runScript` is modelled from the spec:
`ExecuteStringTask` lives in the missing `task-runner.h`, and per §4.2 it
parses and executes its source text in the active context. -/
def Task.run (session : Option Nat) : Task → List Effect
  | .runScript source => [.ranScript source]
  | .runTimerCallback f => [.ranCallback f]
  | .dispatchProtocolMessage text => sendMessageToBackendTaskRun session text

/-- The backend Runner's queue, the only state `receiveMessage_` touches. -/
structure BridgeState where
  backendQueue : List Task
deriving DecidableEq, Repr

/-- `receiveMessage_`, the transport's inbound callback: construct a
`SendMessageToBackendTask` carrying the message text and `Append` it to the
backend Runner — nothing else. -/
def receiveMessage (message : String) (st : BridgeState) : BridgeState :=
  { backendQueue := st.backendQueue ++ [Task.dispatchProtocolMessage message] }

/-- The backend Runner's thread draining its queue in FIFO order with
`session` bound to its context: the concatenated effects of running each
task in turn. -/
def drain (session : Option Nat) (queue : List Task) : List Effect :=
  queue.flatMap (Task.run session)

/-- C4: `receiveMessage_` never executes the inbound message inline — its
entire action, whatever the prior queue depth, is appending one
DispatchProtocolMessage Task carrying the message text to the backend
Runner's queue; when the backend Runner later drains the queue with its
bound Session active, every previously queued task runs first and then the
message is forwarded to that Session (FIFO). -/
theorem receiveMessage_only_enqueues (message : String) (st : BridgeState) :
    receiveMessage message st =
      ⟨st.backendQueue ++ [Task.dispatchProtocolMessage message]⟩ ∧
    (∀ s : Nat,
      drain (some s) (receiveMessage message st).backendQueue =
        drain (some s) st.backendQueue ++ [.dispatched s message]) := by
  refine ⟨rfl, fun s => ?_⟩
  simp [drain, receiveMessage, Task.run, sendMessageToBackendTaskRun]

/-- C6: when a DispatchProtocolMessage Task runs on a Runner whose context
has no bound Session, the `CHECK` fails and the process aborts; with a
Session bound, the task forwards exactly the carried text as one protocol
command to that Session. -/
theorem dispatch_requires_session (message : String) :
    sendMessageToBackendTaskRun none message = [.processAbort] ∧
    (∀ s : Nat,
      sendMessageToBackendTaskRun (some s) message = [.dispatched s message]) :=
  ⟨rfl, fun _ => rfl⟩

/-- A `v8_inspector::StringView`: either 8-bit (byte code units) or 16-bit
(UTF-16 code units), each unit given as its numeric value. -/
inductive StringView
  | bits8 (chars : List Nat)
  | bits16 (chars : List Nat)
deriving DecidableEq, Repr

/-- `FrontendChannelImpl::SendMessageToFrontend`: an 8-bit message's bytes
are handed to `sendMessage` directly (complete); a 16-bit message is copied
unit by unit through a fixed `char msg[2048]` stack buffer with a `(char)`
narrowing cast (low byte kept), then a terminating 0 is stored at index
`length` — so any 16-bit message whose length + 1 exceeds 2048 writes past
the buffer's end: undefined behaviour, modelled as `none` (no defined
delivery). -/
def SendMessageToFrontend : StringView → Option (List Nat)
  | .bits8 chars => some chars
  | .bits16 chars =>
    if chars.length + 1 ≤ 2048 then some (chars.map (· % 256)) else none

/-- C1: evaluation at the failing input — a 16-bit outbound message of
length 2048 has no defined delivery (the fixed 2048-byte buffer overflows),
while any 8-bit message is delivered complete; the deliverable length of a
16-bit message is bounded by the fixed-size intermediate buffer, contrary to
the claim. -/
theorem sendMessageToFrontend_fixed_buffer :
    SendMessageToFrontend (.bits16 (List.replicate 2048 97)) = none ∧
    (∀ chars : List Nat, SendMessageToFrontend (.bits8 chars) = some chars) := by
  constructor
  · have h : ¬ ((List.replicate 2048 97 : List Nat).length + 1 ≤ 2048) := by
      rw [List.length_replicate]; omega
    simp only [SendMessageToFrontend]
    rw [if_neg h]
  · intro chars; rfl

/-- One main-sequence step of `kore`'s startup. -/
inductive StartupStep
  /-- construct the backend `TaskRunner` (its thread will signal the
  semaphore once ready) -/
  | createBackendRunner
  /-- `ready_semaphore.Wait()` -/
  | waitReady
  /-- `SendMessageToBackendExtension::set_backend_task_runner` -/
  | setBackendRunnerForExtension
  /-- construct the frontend `TaskRunner` -/
  | createFrontendRunner
  /-- construct the `InspectorClientImpl` (the Debug Session Bridge) -/
  | createInspectorClient
  /-- push one runner into the `task_runners` shutdown registry -/
  | registerRunnerForShutdown
  /-- install `receiveMessage_` as the transport's inbound callback -/
  | setReceiveCallback
  /-- `startServer(&ready_semaphore)` -/
  | startServer
  /-- fall into the `while (true) {}` loop -/
  | enterMainLoop
deriving DecidableEq, Repr

/-- The sequence of startup steps `kore` performs on the main thread, in
program order.  The `ready_semaphore.Wait()` after `startServer` is
commented out in the source, so no `waitReady` follows `startServer`. -/
def koreStartup : List StartupStep :=
  [.createBackendRunner, .waitReady, .setBackendRunnerForExtension,
   .createFrontendRunner, .waitReady,
   .createInspectorClient, .waitReady,
   .registerRunnerForShutdown, .registerRunnerForShutdown,
   .setReceiveCallback, .startServer, .enterMainLoop]

/-- Whether, strictly between the first occurrence of `a` and the next
occurrence of `b` after it, a `waitReady` step occurs — i.e. whether the
stage begun by `a` is awaited before `b` begins. -/
def waitsBefore (tr : List StartupStep) (a b : StartupStep) : Bool :=
  (((tr.dropWhile (· != a)).drop 1).takeWhile (· != b)).contains .waitReady

/-- C8 (counterexample): the startup sequence is not a four-stage barrier —
the conjunction of the four stage-waits fails, because after `startServer`
no `waitReady` occurs before the main loop is entered (that wait is
commented out in the source). -/
theorem kore_no_wait_after_server :
    ¬ (waitsBefore koreStartup .createBackendRunner .createFrontendRunner = true ∧
       waitsBefore koreStartup .createFrontendRunner .createInspectorClient = true ∧
       waitsBefore koreStartup .createInspectorClient .startServer = true ∧
       waitsBefore koreStartup .startServer .enterMainLoop = true) := by
  decide

/-- C8 (amended): startup is a strict three-stage barrier — the main
sequence waits for the ready signal after creating the backend Runner and
before creating the frontend Runner, waits again before creating the Debug
Session Bridge, and waits again before starting the transport server; but
after `startServer` it proceeds into the main loop without waiting for the
transport's ready signal. -/
theorem kore_three_stage_barrier :
    waitsBefore koreStartup .createBackendRunner .createFrontendRunner = true ∧
    waitsBefore koreStartup .createFrontendRunner .createInspectorClient = true ∧
    waitsBefore koreStartup .createInspectorClient .startServer = true ∧
    waitsBefore koreStartup .startServer .enterMainLoop = false := by
  decide

end Krom
